import Mathlib

/-!
Verification of `pyps/constants.py`: a table of CODATA 2018 physical
constants together with a unit-conversion mechanism (the `atomic_units`
decorator and the `convert_au` / `revert_au` entry points).

Embedding choices:
* Python floats are modelled as exact rationals (`ℚ`); every numeric
  literal of the source is transcribed exactly, and every derived
  constant uses the exact derivation formula of the source.
* The registry `conversion_data` (a dict of dicts, insertion-ordered)
  is modelled as an association list of association lists in the
  exact insertion order of the module; Python dict lookup is
  `List.lookup`.
* A value returned by a wrapped computation is a variant `PyRes`:
  `scalar` (a number), `tup` (a Python tuple of numbers, which the
  wrapper rescales selectively via its `isinstance(result, tuple)`
  test) or `arr` (a numpy array of numbers, for which the expression
  `data[units] * result` broadcasts elementwise).
* Python exceptions are an `Except PyError` result.  The `ValueError`
  raised by the wrapper is modelled structurally: the constructor
  carries the dimension name, the rejected unit string and the list
  `list(data.keys())` from which the f-string message
  (unrecognised DIM units : UNITS, supported units: LIST) is built.
* The decorator argument `nargs` has Python type `int`; it is modelled
  as `ℕ`.  This loses nothing: for a negative `nargs` the guard
  `i < nargs` is false at every index `i ≥ 0`, exactly as for
  `nargs = 0`.
-/

namespace Pyps

/-- Source constant `c = 299792458.0` (speed of light, m/s). -/
def c : ℚ := 299792458

/-- Source constant `h = 6.62607015e-34` (Planck constant). -/
def h : ℚ := 662607015 / 10 ^ 42

/-- Source constant `hbar = 1.054571817e-34`. -/
def hbar : ℚ := 1054571817 / 10 ^ 43

/-- Source constant `Ry = 10973731.568160` (Rydberg constant). -/
def Ry : ℚ := 1097373156816 / 10 ^ 5

/-- Source constant `e = 1.602176634e-19` (elementary charge). -/
def e : ℚ := 1602176634 / 10 ^ 28

/-- Source constant `m_e = 9.1093837015e-31` (electron mass). -/
def m_e : ℚ := 91093837015 / 10 ^ 41

/-- Source constant `alpha = 7.2973525693e-3` (fine-structure constant). -/
def alpha : ℚ := 72973525693 / 10 ^ 13

/-- Derived constant `En_h = alpha ** 2.0 * m_e * c ** 2.0` (Hartree energy). -/
def En_h : ℚ := alpha ^ 2 * m_e * c ^ 2

/-- Derived constant `a0 = hbar / (m_e * c * alpha)` (Bohr radius). -/
def a0 : ℚ := hbar / (m_e * c * alpha)

/-- Derived constant `mu_B = e * hbar / (2.0 * m_e)` (Bohr magneton). -/
def mu_B : ℚ := e * hbar / (2 * m_e)

/-- Derived constant `mass = 2.0 * m_e` (positronium mass). -/
def mass : ℚ := 2 * m_e

/-- Source constant `mu_me = 0.5` (reduced electron mass over m_e). -/
def mu_me : ℚ := 1 / 2

/-- Derived constant `Ry_ps = Ry * mu_me` (Rydberg constant for positronium). -/
def Ry_ps : ℚ := Ry * mu_me

/-- Derived constant `a_ps = a0 / mu_me` (Bohr radius for Ps). -/
def a_ps : ℚ := a0 / mu_me

/-!
The registry factors.  Each chained assignment of the source (such as
`conversion_data["energy"]["SI"] = ... = En_h`) evaluates its right
hand side once and shares that single value among several aliases;
that sharing is mirrored by giving each distinct factor one definition
used for all of its aliases.
-/

/-- Factor stored by `conversion_data["energy"]["SI" | "joule" | "J"] = En_h`. -/
def energy_SI : ℚ := En_h

/-- Factor stored by `conversion_data["energy"]["electronvolt" | "eV"] = En_h / e`. -/
def energy_eV : ℚ := En_h / e

/-- Factor stored by `conversion_data["energy"]["Hz"] = En_h / h`. -/
def energy_Hz : ℚ := En_h / h

/-- Factor stored by `conversion_data["energy"]["/m"] = En_h / (c * h)`. -/
def energy_per_m : ℚ := En_h / (c * h)

/-- Factor stored by
`conversion_data["energy"]["/cm" | "wavenumbers" | "kayser"]`,
assigned as `conversion_data["energy"]["/m"] / 100.0`. -/
def energy_per_cm : ℚ := energy_per_m / 100

/-- Factor stored by `conversion_data["length"]["SI" | "meter" | "m"] = a0`. -/
def length_m : ℚ := a0

/-- Factor stored by
`conversion_data["length"]["cm"] = conversion_data["length"]["m"] * 100.0`. -/
def length_cm : ℚ := length_m * 100

/-- Factor stored by
`conversion_data["electric field"]["SI" | "V/m"] = En_h / (e * a0)`. -/
def field_V_per_m : ℚ := En_h / (e * a0)

/-- Factor stored by `conversion_data["electric field"]["V/cm"]`,
assigned as `conversion_data["electric field"]["V/m"] * 100.0`. -/
def field_V_per_cm : ℚ := field_V_per_m * 100

/-- The inner dict `conversion_data["energy"]`, keys in the insertion
order of the source (chained assignments bind left to right). -/
def energyData : List (String × ℚ) :=
  [ ("SI", energy_SI), ("joule", energy_SI), ("J", energy_SI),
    ("electronvolt", energy_eV), ("eV", energy_eV),
    ("Hz", energy_Hz), ("/m", energy_per_m),
    ("/cm", energy_per_cm), ("wavenumbers", energy_per_cm),
    ("kayser", energy_per_cm) ]

/-- The inner dict `conversion_data["length"]`, keys in insertion order. -/
def lengthData : List (String × ℚ) :=
  [ ("SI", length_m), ("meter", length_m), ("m", length_m),
    ("cm", length_cm) ]

/-- The inner dict `conversion_data["electric field"]`, keys in
insertion order. -/
def fieldData : List (String × ℚ) :=
  [ ("SI", field_V_per_m), ("V/m", field_V_per_m),
    ("V/cm", field_V_per_cm) ]

/-- The module-level registry `conversion_data`, in the dict insertion
order of the source. -/
def conversion_data : List (String × List (String × ℚ)) :=
  [ ("energy", energyData), ("length", lengthData),
    ("electric field", fieldData) ]

/-- A value returned by a wrapped computation: a number, a Python
tuple of numbers, or a numpy array of numbers. -/
inductive PyRes where
  | scalar (x : ℚ)
  | tup (xs : List ℚ)
  | arr (xs : List ℚ)
  deriving DecidableEq, Repr

/-- A Python exception raised by the module: the `KeyError` escaping
from `conversion_data[dimension]`, the `ValueError` raised by the
wrapper (carrying the data its message is formatted from), or a
`TypeError` from an unsupported arithmetic operation. -/
inductive PyError where
  | keyError (key : String)
  | valueError (dimension units : String) (supported : List String)
  | typeError
  deriving DecidableEq, Repr

/-- The meaning of the Python expression `factor * result` for a
non-tuple result: plain multiplication on a number, elementwise
broadcast on a numpy array, `TypeError` on a tuple (the wrapper never
multiplies a tuple directly, due to its `isinstance` test). -/
def pyMul (factor : ℚ) : PyRes → Except PyError PyRes
  | .scalar x => .ok (.scalar (factor * x))
  | .arr xs => .ok (.arr (xs.map (fun r => factor * r)))
  | .tup _ => .error .typeError

/-- The body of the inner `wrapper(*args, units=None, **kwargs)`,
given the `data` dict captured by the closure.  Mirrors the source
line by line: pass through when
`units is None or units in ["au", "atomic_units"]`; when
`units in data`, call the function and then either rescale the first
`nargs` elements of a tuple result (`enumerate` with the guard
`i < nargs`) or evaluate `data[units] * result` on any other result;
otherwise raise the `ValueError` listing `list(data.keys())`.  The
positional and keyword arguments passed through to `func` are folded
into the closure `func : Unit → PyRes`. -/
def wrapper (dimension : String) (data : List (String × ℚ)) (nargs : ℕ)
    (func : Unit → PyRes) (units : Option String) : Except PyError PyRes :=
  match units with
  | none => .ok (func ())
  | some u =>
    if u = "au" ∨ u = "atomic_units" then
      .ok (func ())
    else
      match data.lookup u with
      | some factor =>
        match func () with
        | .tup xs =>
          .ok (.tup (xs.enum.map (fun p =>
            if p.1 < nargs then factor * p.2 else p.2)))
        | r => pyMul factor r
      | none => .error (.valueError dimension u (data.map Prod.fst))

/-- The decorator factory `atomic_units(dimension, nargs=1)`: it
evaluates `data = conversion_data[dimension]` eagerly, so a `KeyError`
escapes here, before any function is decorated; on success it returns
the decorator, here the map from a computation to its wrapped form. -/
def atomic_units (dimension : String) (nargs : ℕ) :
    Except PyError ((Unit → PyRes) → Option String → Except PyError PyRes) :=
  match conversion_data.lookup dimension with
  | none => .error (.keyError dimension)
  | some data => .ok (wrapper dimension data nargs)

/-- The call `atomic_units(dimension, nargs)(func)(units=units)`:
build the converter, decorate `func`, call the wrapped form with the
given `units`.  An exception at any stage propagates. -/
def call_wrapped (dimension : String) (nargs : ℕ) (func : Unit → PyRes)
    (units : Option String) : Except PyError PyRes :=
  match atomic_units dimension nargs with
  | .error err => .error err
  | .ok deco => deco func units

/-- The entry point `convert_au(value, dimension, units)`, defined in
the source as `atomic_units(dimension)(lambda: value)(units=units)`
with the default `nargs=1`. -/
def convert_au (value : ℚ) (dimension : String) (units : Option String) :
    Except PyError PyRes :=
  call_wrapped dimension 1 (fun _ => .scalar value) units

/-- The entry point `revert_au(value, dimension, units)`, defined in
the source as `value / atomic_units(dimension)(lambda: 1)(units=units)`.
Dividing by a non-number would be a `TypeError`; that branch is
unreachable because the wrapped lambda returns a number. -/
def revert_au (value : ℚ) (dimension : String) (units : Option String) :
    Except PyError ℚ :=
  match call_wrapped dimension 1 (fun _ => .scalar 1) units with
  | .ok (.scalar f) => .ok (value / f)
  | .ok _ => .error .typeError
  | .error err => .error err

/-- Sample computation returning the scalar `5`, used to instantiate
universally quantified theorems at a concrete input. -/
def sampleScalar5 : Unit → PyRes := fun _ => .scalar 5

/-- Sample computation returning the tuple `(2, 99)`. -/
def sampleTup : Unit → PyRes := fun _ => .tup [2, 99]

/-- Sample computation returning the array `[2, 99]`. -/
def sampleArr : Unit → PyRes := fun _ => .arr [2, 99]

/-! Helper lemmas shared by the claim theorems. -/

/-- A successful `List.lookup` over string keys exhibits membership of
the key-value pair in the association list. -/
theorem mem_of_lookup_eq_some {β : Type} {l : List (String × β)} {a : String}
    {b : β} (hl : l.lookup a = some b) : (a, b) ∈ l := by
  induction l with
  | nil => simp [List.lookup] at hl
  | cons p t ih =>
    obtain ⟨k, v⟩ := p
    rw [List.lookup] at hl
    rcases hak : (a == k) with _ | _
    · rw [hak] at hl
      exact List.mem_cons_of_mem _ (ih hl)
    · rw [hak] at hl
      obtain rfl : v = b := by simpa using hl
      have hk : a = k := by simpa using hak
      subst hk
      exact List.mem_cons_self _ _

/-- A successful dimension lookup comes from one of the three
registered dimensions, with its inner dict. -/
theorem dim_cases {dim : String} {data : List (String × ℚ)}
    (hd : conversion_data.lookup dim = some data) :
    (dim = "energy" ∧ data = energyData) ∨
      (dim = "length" ∧ data = lengthData) ∨
      (dim = "electric field" ∧ data = fieldData) := by
  have hmem := mem_of_lookup_eq_some hd
  simpa [conversion_data, Prod.ext_iff] using hmem

/-- Neither sentinel spelling is a registered unit alias of any
dimension. -/
theorem sentinel_not_registered :
    energyData.lookup "au" = none ∧ energyData.lookup "atomic_units" = none ∧
    lengthData.lookup "au" = none ∧ lengthData.lookup "atomic_units" = none ∧
    fieldData.lookup "au" = none ∧ fieldData.lookup "atomic_units" = none := by
  refine ⟨?_, ?_, ?_, ?_, ?_, ?_⟩ <;> rfl

/-- A unit alias found in a registered inner dict is not a sentinel
spelling. -/
theorem lookup_ne_sentinel {dim u : String} {data : List (String × ℚ)} {f : ℚ}
    (hd : conversion_data.lookup dim = some data)
    (hu : data.lookup u = some f) : ¬(u = "au" ∨ u = "atomic_units") := by
  obtain ⟨h1, h2, h3, h4, h5, h6⟩ := sentinel_not_registered
  rcases dim_cases hd with ⟨_, rfl⟩ | ⟨_, rfl⟩ | ⟨_, rfl⟩ <;>
    rintro (rfl | rfl)
  · rw [h1] at hu; exact Option.noConfusion hu
  · rw [h2] at hu; exact Option.noConfusion hu
  · rw [h3] at hu; exact Option.noConfusion hu
  · rw [h4] at hu; exact Option.noConfusion hu
  · rw [h5] at hu; exact Option.noConfusion hu
  · rw [h6] at hu; exact Option.noConfusion hu

/-- With the unit omitted or equal to a sentinel spelling, the wrapped
call returns the raw result of the computation. -/
theorem call_wrapped_sentinel (dim : String) (data : List (String × ℚ))
    (n : ℕ) (func : Unit → PyRes) (u : Option String)
    (hd : conversion_data.lookup dim = some data)
    (hu : u = none ∨ u = some "au" ∨ u = some "atomic_units") :
    call_wrapped dim n func u = .ok (func ()) := by
  unfold call_wrapped atomic_units
  rw [hd]
  rcases hu with rfl | rfl | rfl
  · rfl
  · simp [wrapper]
  · simp [wrapper]

/-- With a registered unit, the wrapped call reduces to the dispatch
on the shape of the raw result. -/
theorem call_wrapped_of_lookup (dim u : String) (data : List (String × ℚ))
    (f : ℚ) (n : ℕ) (func : Unit → PyRes)
    (hd : conversion_data.lookup dim = some data)
    (hu : data.lookup u = some f) :
    call_wrapped dim n func (some u) =
      match func () with
      | .tup xs =>
        .ok (.tup (xs.enum.map (fun p =>
          if p.1 < n then f * p.2 else p.2)))
      | r => pyMul f r := by
  unfold call_wrapped atomic_units
  rw [hd]
  simp only [wrapper]
  rw [if_neg (lookup_ne_sentinel hd hu), hu]

/-- With a registered unit, a scalar-returning computation is wrapped
to the factor times its value. -/
theorem call_wrapped_scalar (dim u : String) (data : List (String × ℚ))
    (f : ℚ) (n : ℕ) (x : ℚ)
    (hd : conversion_data.lookup dim = some data)
    (hu : data.lookup u = some f) :
    call_wrapped dim n (fun _ => .scalar x) (some u) =
      .ok (.scalar (f * x)) := by
  rw [call_wrapped_of_lookup dim u data f n _ hd hu]
  rfl

/-- With a registered unit, a tuple-returning computation is wrapped
to the enumerated selective rescaling. -/
theorem call_wrapped_tup (dim u : String) (data : List (String × ℚ))
    (f : ℚ) (n : ℕ) (xs : List ℚ)
    (hd : conversion_data.lookup dim = some data)
    (hu : data.lookup u = some f) :
    call_wrapped dim n (fun _ => .tup xs) (some u) =
      .ok (.tup (xs.enum.map (fun p =>
        if p.1 < n then f * p.2 else p.2))) := by
  rw [call_wrapped_of_lookup dim u data f n _ hd hu]

/-- With a registered unit, an array-returning computation is wrapped
to the elementwise broadcast of the factor. -/
theorem call_wrapped_arr (dim u : String) (data : List (String × ℚ))
    (f : ℚ) (n : ℕ) (xs : List ℚ)
    (hd : conversion_data.lookup dim = some data)
    (hu : data.lookup u = some f) :
    call_wrapped dim n (fun _ => .arr xs) (some u) =
      .ok (.arr (xs.map (fun r => f * r))) := by
  rw [call_wrapped_of_lookup dim u data f n _ hd hu]
  rfl

/-! Positivity of the fundamental constants and of every registry
factor. -/

/-- The speed of light literal is positive. -/
theorem c_pos : 0 < c := by unfold c; norm_num

/-- The Planck constant literal is positive. -/
theorem h_pos : 0 < h := by unfold h; norm_num

/-- The reduced Planck constant literal is positive. -/
theorem hbar_pos : 0 < hbar := by unfold hbar; norm_num

/-- The elementary charge literal is positive. -/
theorem e_pos : 0 < e := by unfold e; norm_num

/-- The electron mass literal is positive. -/
theorem m_e_pos : 0 < m_e := by unfold m_e; norm_num

/-- The fine-structure constant literal is positive. -/
theorem alpha_pos : 0 < alpha := by unfold alpha; norm_num

/-- The derived Hartree energy is positive. -/
theorem En_h_pos : 0 < En_h := by
  unfold En_h
  have h1 := alpha_pos
  have h2 := m_e_pos
  have h3 := c_pos
  positivity

/-- The derived Bohr radius is positive. -/
theorem a0_pos : 0 < a0 := by
  unfold a0
  exact div_pos hbar_pos (mul_pos (mul_pos m_e_pos c_pos) alpha_pos)

/-- Every factor stored in the registry is strictly positive. -/
theorem factors_pos :
    ∀ p ∈ conversion_data, ∀ q ∈ p.2, (0 : ℚ) < q.2 := by
  have hSI : 0 < energy_SI := En_h_pos
  have heV : 0 < energy_eV := div_pos En_h_pos e_pos
  have hHz : 0 < energy_Hz := div_pos En_h_pos h_pos
  have hpm : 0 < energy_per_m := div_pos En_h_pos (mul_pos c_pos h_pos)
  have hpcm : 0 < energy_per_cm := div_pos hpm (by norm_num)
  have hm : 0 < length_m := a0_pos
  have hcm : 0 < length_cm := mul_pos hm (by norm_num)
  have hVm : 0 < field_V_per_m := div_pos En_h_pos (mul_pos e_pos a0_pos)
  have hVcm : 0 < field_V_per_cm := mul_pos hVm (by norm_num)
  intro p hp q hq
  simp only [conversion_data, List.mem_cons, List.not_mem_nil, or_false] at hp
  rcases hp with rfl | rfl | rfl <;>
    simp only [energyData, lengthData, fieldData, List.mem_cons,
      List.not_mem_nil, or_false] at hq
  · rcases hq with rfl | rfl | rfl | rfl | rfl | rfl | rfl | rfl | rfl | rfl <;>
      assumption
  · rcases hq with rfl | rfl | rfl | rfl <;> assumption
  · rcases hq with rfl | rfl | rfl <;> assumption

/-- The factor found by a registered (dimension, unit) lookup is
strictly positive. -/
theorem factor_pos_of_lookup {dim u : String} {data : List (String × ℚ)}
    {f : ℚ} (hd : conversion_data.lookup dim = some data)
    (hu : data.lookup u = some f) : 0 < f :=
  factors_pos (dim, data) (mem_of_lookup_eq_some hd) (u, f)
    (mem_of_lookup_eq_some hu)

/-- With a registered unit, `revert_au` divides by the factor. -/
theorem revert_au_of_lookup (dim u : String) (data : List (String × ℚ))
    (f : ℚ) (x : ℚ) (hd : conversion_data.lookup dim = some data)
    (hu : data.lookup u = some f) :
    revert_au x dim (some u) = .ok (x / f) := by
  unfold revert_au
  rw [call_wrapped_scalar dim u data f 1 1 hd hu]
  simp only []
  rw [mul_one]

/-- Claim C1: for every registered dimension and every wrapped
computation, calling with the unit omitted (None) or equal to a
sentinel spelling (au or atomic_units) returns the raw result of the
computation unchanged; in particular `convert_au` is the identity for
those unit arguments. -/
theorem claim_C1_identity (dim : String) (data : List (String × ℚ))
    (n : ℕ) (func : Unit → PyRes) (u : Option String)
    (hd : conversion_data.lookup dim = some data)
    (hu : u = none ∨ u = some "au" ∨ u = some "atomic_units") :
    call_wrapped dim n func u = .ok (func ()) ∧
    (∀ x : ℚ, convert_au x dim u = .ok (.scalar x)) := by
  refine ⟨call_wrapped_sentinel dim data n func u hd hu, fun x => ?_⟩
  exact call_wrapped_sentinel dim data 1 (fun _ => .scalar x) u hd hu

/-- Witness for C1 at dimension energy, unit au and unit None. -/
theorem claim_C1_identity_witness :
    call_wrapped "energy" 1 sampleScalar5 (some "au") =
      .ok (.scalar 5) ∧
    convert_au 7 "energy" none = .ok (.scalar 7) := by
  constructor
  · exact (claim_C1_identity "energy" energyData 1 sampleScalar5 (some "au")
      rfl (Or.inr (Or.inl rfl))).1
  · exact (claim_C1_identity "energy" energyData 1 sampleScalar5 none
      rfl (Or.inl rfl)).2 7

/-- Claim C2: for every registered (dimension, unit) pair with factor
f and wrap-time arity n with 1 ≤ n, a scalar result is returned as f
times the result; a tuple result of length L is returned as a tuple of
the same length L in which each element at index i < n is f times the
original element and each element at index i ≥ n passes through
unchanged.  Concretely, wrapping a computation returning (2.0, 99)
with arity 1 and calling with unit eV yields (2.0 * En_h / e, 99). -/
theorem claim_C2_selective_rescale (dim u : String)
    (data : List (String × ℚ)) (f : ℚ) (n : ℕ)
    (hd : conversion_data.lookup dim = some data)
    (hu : data.lookup u = some f) (_hn : 1 ≤ n) :
    (∀ x : ℚ, call_wrapped dim n (fun _ => .scalar x) (some u) =
      .ok (.scalar (f * x))) ∧
    (∀ xs : List ℚ, ∃ ys : List ℚ,
      call_wrapped dim n (fun _ => .tup xs) (some u) = .ok (.tup ys) ∧
      ys.length = xs.length ∧
      (∀ i : ℕ, i < n → ys[i]? = xs[i]?.map (fun r => f * r)) ∧
      (∀ i : ℕ, n ≤ i → ys[i]? = xs[i]?)) ∧
    call_wrapped "energy" 1 (fun _ => .tup [2, 99]) (some "eV") =
      .ok (.tup [2 * (En_h / e), 99]) := by
  refine ⟨fun x => call_wrapped_scalar dim u data f n x hd hu,
    fun xs => ?_, ?_⟩
  · refine ⟨xs.enum.map (fun p => if p.1 < n then f * p.2 else p.2),
      call_wrapped_tup dim u data f n xs hd hu, ?_, ?_, ?_⟩
    · rw [List.length_map, List.enum_length]
    · intro i hi
      rw [List.getElem?_map, List.getElem?_enum]
      cases hx : xs[i]? <;> simp [hi]
    · intro i hi
      rw [List.getElem?_map, List.getElem?_enum]
      cases hx : xs[i]? <;> simp [Nat.not_lt.2 hi]
  · rw [call_wrapped_tup "energy" "eV" energyData energy_eV 1 [2, 99] rfl rfl]
    simp [List.enum, List.enumFrom, energy_eV, mul_comm]

/-- Witness for C2 at dimension energy, unit eV, arity 1, on the
sample tuple computation returning (2, 99). -/
theorem claim_C2_selective_rescale_witness :
    call_wrapped "energy" 1 sampleTup (some "eV") =
      .ok (.tup [2 * (En_h / e), 99]) := by
  exact (claim_C2_selective_rescale "energy" "eV" energyData energy_eV 1
    rfl rfl le_rfl).2.2

/-- Claim C3: for every registered dimension, a unit string that is
neither None, a sentinel spelling, nor a registered alias fails with
an error carrying the dimension name, the rejected unit string, and
the full list of registered aliases of that dimension; in particular
converting 1.0 energy atomic units to furlong fails with the full
energy alias list and returns no converted value. -/
theorem claim_C3_unknown_unit (dim u : String) (data : List (String × ℚ))
    (n : ℕ) (func : Unit → PyRes)
    (hd : conversion_data.lookup dim = some data)
    (h1 : u ≠ "au") (h2 : u ≠ "atomic_units")
    (h3 : data.lookup u = none) :
    call_wrapped dim n func (some u) =
      .error (.valueError dim u (data.map Prod.fst)) ∧
    convert_au 1 "energy" (some "furlong") =
      .error (.valueError "energy" "furlong"
        ["SI", "joule", "J", "electronvolt", "eV", "Hz", "/m", "/cm",
         "wavenumbers", "kayser"]) := by
  constructor
  · unfold call_wrapped atomic_units
    rw [hd]
    simp only [wrapper]
    rw [if_neg (by rintro (rfl | rfl) <;> simp at h1 h2), h3]
  · rfl

/-- Witness for C3 at dimension energy with the unregistered unit
string furlong. -/
theorem claim_C3_unknown_unit_witness :
    call_wrapped "energy" 1 sampleScalar5 (some "furlong") =
      .error (.valueError "energy" "furlong"
        ["SI", "joule", "J", "electronvolt", "eV", "Hz", "/m", "/cm",
         "wavenumbers", "kayser"]) := by
  have hmain := claim_C3_unknown_unit "energy" "furlong" energyData 1
    sampleScalar5 rfl (by decide) (by decide) rfl
  exact hmain.1

/-- Claim C4: for every registered (dimension, unit) pair and every
value x, reverting the converted value recovers x (round-trip law; in
the exact-rational embedding the recovery is exact). -/
theorem claim_C4_round_trip (dim u : String) (data : List (String × ℚ))
    (f x : ℚ) (hd : conversion_data.lookup dim = some data)
    (hu : data.lookup u = some f) :
    ∃ y : ℚ, convert_au x dim (some u) = .ok (.scalar y) ∧
      revert_au y dim (some u) = .ok x := by
  refine ⟨f * x, call_wrapped_scalar dim u data f 1 x hd hu, ?_⟩
  rw [revert_au_of_lookup dim u data f (f * x) hd hu]
  have hf : f ≠ 0 := (factor_pos_of_lookup hd hu).ne'
  rw [mul_comm, mul_div_assoc, div_self hf, mul_one]

/-- Witness for C4 at dimension length, unit cm, value 3. -/
theorem claim_C4_round_trip_witness :
    convert_au 3 "length" (some "cm") = .ok (.scalar (length_cm * 3)) ∧
    revert_au (length_cm * 3) "length" (some "cm") = .ok 3 := by
  obtain ⟨y, hy1, hy2⟩ := claim_C4_round_trip "length" "cm" lengthData
    length_cm 3 rfl rfl
  have hcomp : convert_au 3 "length" (some "cm") =
      .ok (.scalar (length_cm * 3)) :=
    call_wrapped_scalar "length" "cm" lengthData length_cm 1 3 rfl rfl
  rw [hcomp] at hy1
  obtain rfl : length_cm * 3 = y := by simpa using hy1
  exact ⟨hcomp, hy2⟩

/-- Claim C5: for every registered (dimension, unit) pair with factor
f, `convert_au` returns exactly value times f (or the value unchanged
for the sentinel spellings and for the omitted unit) and `revert_au`
returns exactly value divided by f, so the two are algebraic
inverses. -/
theorem claim_C5_value_formulas (dim u : String)
    (data : List (String × ℚ)) (f x : ℚ)
    (hd : conversion_data.lookup dim = some data)
    (hu : data.lookup u = some f) :
    convert_au x dim (some u) = .ok (.scalar (x * f)) ∧
    revert_au x dim (some u) = .ok (x / f) ∧
    convert_au x dim none = .ok (.scalar x) ∧
    convert_au x dim (some "au") = .ok (.scalar x) ∧
    convert_au x dim (some "atomic_units") = .ok (.scalar x) := by
  refine ⟨?_, revert_au_of_lookup dim u data f x hd hu, ?_, ?_, ?_⟩
  · rw [show convert_au x dim (some u) =
        call_wrapped dim 1 (fun _ => .scalar x) (some u) from rfl,
      call_wrapped_scalar dim u data f 1 x hd hu, mul_comm]
  · exact call_wrapped_sentinel dim data 1 _ none hd (Or.inl rfl)
  · exact call_wrapped_sentinel dim data 1 _ (some "au") hd
      (Or.inr (Or.inl rfl))
  · exact call_wrapped_sentinel dim data 1 _ (some "atomic_units") hd
      (Or.inr (Or.inr rfl))

/-- Witness for C5 at dimension energy, unit Hz, value 4. -/
theorem claim_C5_value_formulas_witness :
    convert_au 4 "energy" (some "Hz") = .ok (.scalar (4 * energy_Hz)) ∧
    revert_au 4 "energy" (some "Hz") = .ok (4 / energy_Hz) := by
  obtain ⟨hc, hr, _, _, _⟩ := claim_C5_value_formulas "energy" "Hz"
    energyData energy_Hz 4 rfl rfl
  exact ⟨hc, hr⟩

/-- Claim C6: every alias group registered with a shared assignment
stores bit-identical factors, and `convert_au` agrees exactly on any
two aliases of such a group, for every value. -/
theorem claim_C6_alias_groups :
    (energyData.lookup "SI" = energyData.lookup "joule" ∧
     energyData.lookup "joule" = energyData.lookup "J" ∧
     energyData.lookup "electronvolt" = energyData.lookup "eV" ∧
     energyData.lookup "/cm" = energyData.lookup "wavenumbers" ∧
     energyData.lookup "wavenumbers" = energyData.lookup "kayser" ∧
     lengthData.lookup "SI" = lengthData.lookup "meter" ∧
     lengthData.lookup "meter" = lengthData.lookup "m" ∧
     fieldData.lookup "SI" = fieldData.lookup "V/m") ∧
    (∀ x : ℚ,
      convert_au x "energy" (some "SI") = convert_au x "energy" (some "joule") ∧
      convert_au x "energy" (some "joule") = convert_au x "energy" (some "J") ∧
      convert_au x "energy" (some "electronvolt") =
        convert_au x "energy" (some "eV") ∧
      convert_au x "energy" (some "/cm") =
        convert_au x "energy" (some "wavenumbers") ∧
      convert_au x "energy" (some "wavenumbers") =
        convert_au x "energy" (some "kayser") ∧
      convert_au x "length" (some "SI") = convert_au x "length" (some "meter") ∧
      convert_au x "length" (some "meter") = convert_au x "length" (some "m") ∧
      convert_au x "electric field" (some "SI") =
        convert_au x "electric field" (some "V/m")) := by
  refine ⟨⟨rfl, rfl, rfl, rfl, rfl, rfl, rfl, rfl⟩, fun x => ?_⟩
  exact ⟨rfl, rfl, rfl, rfl, rfl, rfl, rfl, rfl⟩

/-- Witness for C6 at value 3 on the energy SI alias group. -/
theorem claim_C6_alias_groups_witness :
    convert_au 3 "energy" (some "SI") =
      convert_au 3 "energy" (some "joule") := by
  exact (claim_C6_alias_groups.2 3).1

/-- Counterexample to C7 as stated: constructing a converter for an
unregistered dimension does not succeed lazily; the eager evaluation
of `conversion_data[dimension]` fails at wrap time with a `KeyError`,
before the computation is called and even when no unit is requested,
rather than at call time with the `ValueError` used for unknown unit
strings. -/
theorem claim_C7_counterexample :
    atomic_units "bogus" 1 = .error (.keyError "bogus") ∧
    call_wrapped "bogus" 1 sampleScalar5 none =
      .error (.keyError "bogus") ∧
    PyError.keyError "bogus" ≠
      PyError.valueError "bogus" "eV"
        ["SI", "joule", "J", "electronvolt", "eV", "Hz", "/m", "/cm",
         "wavenumbers", "kayser"] := by
  refine ⟨rfl, rfl, ?_⟩
  intro hne
  exact PyError.noConfusion hne

/-- Claim C7 (amended): `atomic_units` validates the dimension eagerly
at wrap time: for an unregistered dimension the lookup
`conversion_data[dimension]` raises `KeyError` immediately when the
decorator factory is evaluated, so every wrapped call fails with that
same `KeyError` regardless of the computation and of the unit
argument, and the error is distinct from the `ValueError` taxonomy
used for unknown unit strings. -/
theorem claim_C7_eager_dimension_check (dim : String) (n : ℕ)
    (func : Unit → PyRes) (u : Option String)
    (hd : conversion_data.lookup dim = none) :
    atomic_units dim n = .error (.keyError dim) ∧
    call_wrapped dim n func u = .error (.keyError dim) ∧
    (∀ d u2 : String, ∀ s : List String,
      PyError.keyError dim ≠ PyError.valueError d u2 s) := by
  have h1 : atomic_units dim n = .error (.keyError dim) := by
    unfold atomic_units
    rw [hd]
  refine ⟨h1, ?_, ?_⟩
  · unfold call_wrapped
    rw [h1]
  · intro d u2 s hne
    exact PyError.noConfusion hne

/-- Witness for the amended C7 at the unregistered dimension bogus. -/
theorem claim_C7_eager_dimension_check_witness :
    atomic_units "bogus" 2 = .error (.keyError "bogus") ∧
    call_wrapped "bogus" 2 sampleTup (some "eV") =
      .error (.keyError "bogus") := by
  obtain ⟨h1, h2, _⟩ := claim_C7_eager_dimension_check "bogus" 2 sampleTup
    (some "eV") rfl
  exact ⟨h1, h2⟩

/-- Counterexample to C8 as stated: the code converts 1.0 atomic unit
of energy to eV as En_h / e, but with the rounded CODATA 2018 literals
of the source this value is strictly below 27.211386245988, so its
decimal expansion does not begin 27.211386245988 as claimed (the
actual value is 27.21138624593550...). -/
theorem claim_C8_counterexample :
    convert_au 1 "energy" (some "eV") = .ok (.scalar (En_h / e)) ∧
    En_h / e < 27211386245988 / 10 ^ 12 := by
  constructor
  · have h1 := call_wrapped_scalar "energy" "eV" energyData energy_eV 1 1
      rfl rfl
    rw [mul_one] at h1
    exact h1
  · norm_num [En_h, e, alpha, m_e, c]

/-- Claim C8 (amended): converting 1.0 atomic unit of energy to eV
yields En_h / e, which for the rounded CODATA 2018 literals of the
source lies in [27.211386245935, 27.211386245936) rather than at the
officially published 27.211386245988; converting to Hz yields
En_h / h; converting 1.0 atomic unit of length to cm yields a0 * 100,
which lies in [5.2917721058e-9, 5.2917721059e-9) rather than at the
published 5.29177210903e-9. -/
theorem claim_C8_literal_outputs :
    convert_au 1 "energy" (some "eV") = .ok (.scalar (En_h / e)) ∧
    (27211386245935 : ℚ) / 10 ^ 12 ≤ En_h / e ∧
    En_h / e < (27211386245936 : ℚ) / 10 ^ 12 ∧
    convert_au 1 "energy" (some "Hz") = .ok (.scalar (En_h / h)) ∧
    convert_au 1 "length" (some "cm") = .ok (.scalar (a0 * 100)) ∧
    (52917721058 : ℚ) / 10 ^ 19 ≤ a0 * 100 ∧
    a0 * 100 < (52917721059 : ℚ) / 10 ^ 19 := by
  have heV := call_wrapped_scalar "energy" "eV" energyData energy_eV 1 1
    rfl rfl
  rw [mul_one] at heV
  have hHz := call_wrapped_scalar "energy" "Hz" energyData energy_Hz 1 1
    rfl rfl
  rw [mul_one] at hHz
  have hcm := call_wrapped_scalar "length" "cm" lengthData length_cm 1 1
    rfl rfl
  rw [mul_one] at hcm
  refine ⟨heV, ?_, ?_, hHz, hcm, ?_, ?_⟩
  · norm_num [En_h, e, alpha, m_e, c]
  · norm_num [En_h, e, alpha, m_e, c]
  · norm_num [a0, hbar, m_e, c, alpha]
  · norm_num [a0, hbar, m_e, c, alpha]

/-- Claim C9: every factor stored in the registry, for every
(dimension, unit alias) pair, is strictly positive, so the division
performed by `revert_au` never divides by zero for a registered
pair. -/
theorem claim_C9_factors_positive (dim u : String)
    (data : List (String × ℚ)) (f : ℚ)
    (hd : conversion_data.lookup dim = some data)
    (hu : data.lookup u = some f) :
    (∀ p ∈ conversion_data, ∀ q ∈ p.2, (0 : ℚ) < q.2) ∧
    0 < f ∧ f ≠ 0 ∧
    (∀ x : ℚ, revert_au x dim (some u) = .ok (x / f)) := by
  have hf := factor_pos_of_lookup hd hu
  exact ⟨factors_pos, hf, hf.ne',
    fun x => revert_au_of_lookup dim u data f x hd hu⟩

/-- Witness for C9 at dimension electric field, unit V/cm. -/
theorem claim_C9_factors_positive_witness :
    0 < field_V_per_cm ∧ field_V_per_cm ≠ 0 ∧
    revert_au 6 "electric field" (some "V/cm") =
      .ok (6 / field_V_per_cm) := by
  obtain ⟨_, hpos, hne, hrev⟩ := claim_C9_factors_positive "electric field"
    "V/cm" fieldData field_V_per_cm rfl rfl
  exact ⟨hpos, hne, hrev 6⟩

/-- Claim C10: only results that are exactly tuples take the selective
per-element rescaling path; any non-tuple result is subjected to the
single Python multiplication by the factor, independently of the
wrap-time arity (for a numpy array this broadcasts over every
element, including those past the arity).  A concrete contrast at
arity 1 and unit eV: the array [2, 99] has both elements rescaled,
while the tuple (2, 99) keeps its second element. -/
theorem claim_C10_non_tuple_wholesale (dim u : String)
    (data : List (String × ℚ)) (f : ℚ) (n : ℕ)
    (hd : conversion_data.lookup dim = some data)
    (hu : data.lookup u = some f) :
    (∀ func : Unit → PyRes, (∀ xs : List ℚ, func () ≠ .tup xs) →
      call_wrapped dim n func (some u) = pyMul f (func ())) ∧
    (∀ x : ℚ, call_wrapped dim n (fun _ => .scalar x) (some u) =
      .ok (.scalar (f * x))) ∧
    (∀ xs : List ℚ, call_wrapped dim n (fun _ => .arr xs) (some u) =
      .ok (.arr (xs.map (fun r => f * r)))) ∧
    call_wrapped "energy" 1 (fun _ => .arr [2, 99]) (some "eV") =
      .ok (.arr [energy_eV * 2, energy_eV * 99]) ∧
    call_wrapped "energy" 1 (fun _ => .tup [2, 99]) (some "eV") =
      .ok (.tup [energy_eV * 2, 99]) := by
  refine ⟨fun func hnt => ?_,
    fun x => call_wrapped_scalar dim u data f n x hd hu,
    fun xs => call_wrapped_arr dim u data f n xs hd hu, ?_, ?_⟩
  · rw [call_wrapped_of_lookup dim u data f n func hd hu]
    cases hres : func () with
    | scalar x => rfl
    | tup xs => exact absurd hres (hnt xs)
    | arr xs => rfl
  · rw [call_wrapped_arr "energy" "eV" energyData energy_eV 1 [2, 99]
      rfl rfl]
    simp
  · rw [call_wrapped_tup "energy" "eV" energyData energy_eV 1 [2, 99]
      rfl rfl]
    simp [List.enum, List.enumFrom]

/-- Witness for C10 at dimension energy, unit eV, arity 3, on the
sample array computation. -/
theorem claim_C10_non_tuple_wholesale_witness :
    call_wrapped "energy" 3 sampleArr (some "eV") =
      .ok (.arr [energy_eV * 2, energy_eV * 99]) := by
  have harr := (claim_C10_non_tuple_wholesale "energy" "eV" energyData
    energy_eV 3 rfl rfl).2.2.1 [2, 99]
  simpa using harr

end Pyps
